import Mathlib

/-!
Shallow embedding of `src/server.js` (an Express + PostGraphile gateway).

JavaScript strings are modelled as Lean `String` (lists of characters),
JavaScript values appearing in JWT payloads and contexts as `JSValue`
(with `undefined` explicit, as in JS), environment variables as
`Option String` (with JS truthiness made explicit), and the request
handlers and signal handlers as pure functions on explicit state.
External effects (the jwt library, the database) are parameters:
`jwt.verify` is an arbitrary function `String → Option JwtPayload`
(`none` models a thrown verification error), and the database is a list
of `information_schema.columns` rows.
-/

/-- A JavaScript value, as far as this server manipulates them:
`undefined`, `null`, strings, integers and booleans. -/
inductive JSValue where
  | undefined
  | null
  | str (s : String)
  | num (n : Int)
  | bool (b : Bool)
deriving DecidableEq

/-- JavaScript `String(v)` coercion, for the values of `JSValue`. -/
def jsString : JSValue → String
  | .undefined => "undefined"
  | .null => "null"
  | .str s => s
  | .num n => toString n
  | .bool b => if b then "true" else "false"

/-- JS truthiness of an optional environment variable: `!process.env[key]`
is true when the variable is unset or the empty string. -/
def jsFalsy : Option String → Bool
  | none => true
  | some s => s.isEmpty

/-- JS `a || d` for an optional string `a` and default `d`:
yields `d` when `a` is falsy (unset or empty). -/
def jsOr (a : Option String) (d : String) : String :=
  match a with
  | none => d
  | some s => if s.isEmpty then d else s

/-- JS `s.startsWith(pre)`. -/
def jsStartsWith (s pre : String) : Bool :=
  pre.data.isPrefixOf s.data

/-- JS `s.substring(n)` (for `n` within bounds, the suffix from index `n`). -/
def jsSubstringFrom (s : String) (n : Nat) : String :=
  ⟨s.data.drop n⟩

/-- The relevant fields of `process.env` for `server.js`. -/
structure Env where
  DATABASE_URL : Option String
  JWT_SECRET : Option String
  NODE_ENV : Option String
  PORT : Option String
deriving DecidableEq

/-- `validateEnv`, the missing-variable check (lines 25-29 of
`server.js`): names of required variables that are unset or empty. -/
def validateEnvMissing (env : Env) : List String :=
  (if jsFalsy env.DATABASE_URL then ["DATABASE_URL"] else []) ++
  (if jsFalsy env.JWT_SECRET then ["JWT_SECRET"] else [])

/-- `validateEnv`, the warning list (lines 31-36 of `server.js`): a
warning is pushed only when `process.env.NODE_ENV === 'production'`
and the secret is falsy or shorter than 32 characters. -/
def validateEnvWarnings (env : Env) : List String :=
  if env.NODE_ENV = some "production" then
    if jsFalsy env.JWT_SECRET || (env.JWT_SECRET.getD "").length < 32 then
      ["  - JWT_SECRET should be at least 32 characters in production"]
    else []
  else []

/-- `NODE_ENV = process.env.NODE_ENV || 'development'` (line 61). -/
def nodeEnvOf (env : Env) : String :=
  jsOr env.NODE_ENV "development"

/-- `IS_PRODUCTION = NODE_ENV === 'production'` (line 62). -/
def isProductionOf (env : Env) : Bool :=
  nodeEnvOf env == "production"

/-- Outcome of the top-level startup script: either the process exited
with a code before binding the listener, or it reached `app.listen`. -/
inductive StartupOutcome where
  | exited (code : Int)
  | listening (port : String) (isProduction : Bool)
deriving DecidableEq

/-- The straight-line startup sequence of `server.js` up to `app.listen`
(lines 16-68 and 222): `validateEnv()` exits with code 1 when a required
variable is missing; then in production a secret shorter than 32
characters exits with code 1 (line 65-68); otherwise the listener is
bound on `process.env.PORT || 4004`. There is no retry anywhere. -/
def startup (env : Env) : StartupOutcome :=
  if validateEnvMissing env ≠ [] then
    .exited 1
  else
    let JWT_SECRET := env.JWT_SECRET.getD ""
    let IS_PRODUCTION := isProductionOf env
    if IS_PRODUCTION && JWT_SECRET.length < 32 then
      .exited 1
    else
      .listening (jsOr env.PORT "4004") IS_PRODUCTION

/-- The JWT payload as `server.js` reads it: `decoded.userId` and
`decoded.tenantId` are JS property accesses, each yielding `undefined`
when the claim is absent from the token. -/
structure JwtPayload where
  userId : JSValue
  tenantId : JSValue
deriving DecidableEq

/-- The part of an HTTP request `pgSettings` reads:
`req.headers.authorization`. -/
structure Request where
  authorization : Option String
deriving DecidableEq

/-- `pgSettings` (lines 150-169 of `server.js`), the credential-to-context
resolver. `verify` stands for `jwt.verify(token, JWT_SECRET)`: `some`
is a successfully verified payload, `none` a thrown error (malformed,
bad signature, expired), which the `catch` turns into the empty context.
The function is total: it returns a context for every request and every
behaviour of `verify`, never an error. -/
def pgSettings (verify : String → Option JwtPayload) (req : Request) :
    List (String × JSValue) :=
  match req.authorization with
  | none => []
  | some authHeader =>
    if jsStartsWith authHeader "Bearer " then
      match verify (jsSubstringFrom authHeader 7) with
      | some decoded =>
        [("user.id", JSValue.str (jsString decoded.userId)),
         ("user.tenant_id", decoded.tenantId)]
      | none => []
    else []

/-- A character allowed inside the password part of the redaction regex:
`[^:@]` matches any character other than `:` and `@`. -/
def credChar (c : Char) : Bool :=
  !(c = ':' || c = '@')

/-- JS `s.replace(/:[^:@]+@/, ':****@')` on the character list of the
connection string (line 85 of `server.js`): the regex has no global
flag, so only the leftmost match is replaced. At a position holding
`:`, the regex matches exactly when a nonempty run of non-`:`/`@`
characters follows and the character after that run is `@`. -/
def maskCred : List Char → List Char
  | [] => []
  | c :: rest =>
    if c = ':' then
      let run := rest.takeWhile credChar
      let rem := rest.dropWhile credChar
      if run ≠ [] ∧ rem.head? = some '@' then
        ':' :: '*' :: '*' :: '*' :: '*' :: rem
      else
        c :: maskCred rest
    else
      c :: maskCred rest

/-- `dbUrlSafe = process.env.DATABASE_URL?.replace(/:[^:@]+@/, ':****@')`
(line 85): optional chaining propagates an unset variable. -/
def dbUrlSafe (databaseUrl : Option String) : Option String :=
  databaseUrl.map fun s => ⟨maskCred s.data⟩

/-- `p` occurs as a contiguous substring of `l` (JS `l.includes(p)`). -/
def listContains (p l : List Char) : Bool :=
  p.isPrefixOf l ||
    match l with
    | [] => false
    | _ :: t => listContains p t

/-- The options object passed to `postgraphile` (lines 172-216 of
`server.js`). `graphiqlRoute` is `Option String` because the source
passes the literal `false` in production and a route string otherwise;
`maxAllowedComplexity` and `maxAllowedDepth` are `Option Nat` because
the source passes `undefined` (no limit) outside production. -/
structure PostgraphileOptions where
  graphqlRoute : String
  graphiqlRoute : Option String
  graphiql : Bool
  watchPg : Bool
  enableCors : Bool
  classicIds : Bool
  setofFunctionsContainNulls : Bool
  simpleCollections : String
  dynamicJson : Bool
  sortExport : Bool
  extendedErrors : List String
  showErrorStack : Bool
  retryOnInitFail : Bool
  maxAllowedComplexity : Option Nat
  maxAllowedDepth : Option Nat
deriving DecidableEq

/-- The engine configuration built at line 172 of `server.js`, as a pure
function of `IS_PRODUCTION` (the only input the option expressions
read). -/
def middleware (isProduction : Bool) : PostgraphileOptions where
  graphqlRoute := "/graphql"
  graphiqlRoute := if isProduction then none else some "/graphiql"
  graphiql := !isProduction
  watchPg := !isProduction
  enableCors := true
  classicIds := true
  setofFunctionsContainNulls := true
  simpleCollections := "omit"
  dynamicJson := true
  sortExport := true
  extendedErrors := if isProduction then [] else ["hint", "detail", "errcode"]
  showErrorStack := !isProduction
  retryOnInitFail := true
  maxAllowedComplexity := if isProduction then some 1000 else none
  maxAllowedDepth := if isProduction then some 10 else none

/-- Observable process state during shutdown: whether the listener still
accepts new connections, whether the listener close has completed
(set by the asynchronous `server.close` callback, never by the signal
handler itself), whether the pool is drained, the exit code if
`process.exit` has run, and the log lines emitted. -/
structure ProcState where
  acceptingNew : Bool
  listenerClosed : Bool
  poolClosed : Bool
  exitCode : Option Int
  logs : List String
deriving DecidableEq

/-- `server.close(cb)` as invoked by the signal handlers: it immediately
stops the listener accepting new connections and registers a callback;
completion of the close is asynchronous and is not awaited. -/
def serverCloseInitiate (st : ProcState) : ProcState :=
  { st with acceptingNew := false }

/-- The `server.close` completion callback (runs later, on the event
loop, if the process is still alive): marks the listener closed. -/
def serverCloseComplete (st : ProcState) : ProcState :=
  { st with listenerClosed := true,
            logs := st.logs ++ ["[System] HTTP server closed"] }

/-- `await pgPool.end()` inside `try/catch` (lines 243-248): `ok` is
whether the drain succeeded. On failure the error is logged and not
re-raised. -/
def poolEndCaught (st : ProcState) (ok : Bool) : ProcState :=
  if ok then
    { st with poolClosed := true,
              logs := st.logs ++ ["[System] Database pool closed"] }
  else
    { st with logs := st.logs ++ ["[System] Error closing database pool:"] }

/-- The SIGTERM handler (lines 234-251 of `server.js`): log, initiate
`server.close` (not awaited), await the caught pool drain, then
`process.exit(0)`. -/
def sigtermHandler (st : ProcState) (poolEndOk : Bool) : ProcState :=
  let st1 := { st with logs := st.logs ++ ["[System] SIGTERM received, shutting down..."] }
  let st2 := serverCloseInitiate st1
  let st3 := poolEndCaught st2 poolEndOk
  { st3 with exitCode := some 0 }

/-- The SIGINT handler (lines 253-268 of `server.js`): identical body to
the SIGTERM handler up to the log message. -/
def sigintHandler (st : ProcState) (poolEndOk : Bool) : ProcState :=
  let st1 := { st with logs := st.logs ++ ["[System] SIGINT received, shutting down..."] }
  let st2 := serverCloseInitiate st1
  let st3 := poolEndCaught st2 poolEndOk
  { st3 with exitCode := some 0 }

/-- The pool error handler `pgPool.on(..., process.exit(-1))`
(lines 79-82 of `server.js`): an unexpected pool-level fault logs and
terminates the whole process with exit code `-1`. -/
def poolErrorHandler (st : ProcState) : ProcState :=
  { st with exitCode := some (-1),
            logs := st.logs ++ ["[PostgreSQL] Unexpected error on idle client"] }

/-- One row of `information_schema.columns` as selected by the `/schema`
query (lines 118-128 of `server.js`). -/
structure InfoRow where
  table_schema : String
  table_name : String
  column_name : String
  data_type : String
  is_nullable : String
  ordinal_position : Nat
deriving DecidableEq

/-- The WHERE clause of the `/schema` query:
`table_schema = 'public' AND table_name IN ('users', 'tenants')`. -/
def schemaRowSelected (r : InfoRow) : Bool :=
  r.table_schema == "public" && (r.table_name == "users" || r.table_name == "tenants")

/-- The ORDER BY key: `table_name, ordinal_position`. -/
def rowLE (a b : InfoRow) : Bool :=
  a.table_name < b.table_name ||
    (a.table_name == b.table_name && a.ordinal_position ≤ b.ordinal_position)

/-- Insertion step of the sort used to model ORDER BY. -/
def insertRow (r : InfoRow) : List InfoRow → List InfoRow
  | [] => [r]
  | x :: xs => if rowLE r x then r :: x :: xs else x :: insertRow r xs

/-- Insertion sort by `rowLE`, modelling the ORDER BY of the query. -/
def sortRows : List InfoRow → List InfoRow
  | [] => []
  | x :: xs => insertRow x (sortRows xs)

/-- The `/schema` SQL query over a database `db` (the full
`information_schema.columns` relation): rows of schema `public` whose
table is in the allow-list, ordered by table name and position. -/
def runSchemaQuery (db : List InfoRow) : List InfoRow :=
  sortRows (db.filter schemaRowSelected)

/-- One column object of the `/schema` response body. -/
structure ColumnInfo where
  name : String
  type : String
  nullable : Bool
deriving DecidableEq

/-- The column object pushed for a row (lines 135-139): `nullable` is
`row.is_nullable === 'YES'`. -/
def colOf (r : InfoRow) : ColumnInfo :=
  ⟨r.column_name, r.data_type, r.is_nullable == "YES"⟩

/-- One iteration of the `result.rows.forEach` loop (lines 131-140):
create the table entry when absent, then push the column object. -/
def addRow (tables : List (String × List ColumnInfo)) (r : InfoRow) :
    List (String × List ColumnInfo) :=
  if tables.any fun e => e.1 == r.table_name then
    tables.map fun e =>
      if e.1 == r.table_name then (e.1, e.2 ++ [colOf r]) else e
  else
    tables ++ [(r.table_name, [colOf r])]

/-- The `tables` object built from the query rows, as an
insertion-ordered association list. -/
def buildTables (rows : List InfoRow) : List (String × List ColumnInfo) :=
  rows.foldl addRow []

/-- The HTTP response of `GET /schema`. -/
structure SchemaResponse where
  status : Nat
  tables : Option (List (String × List ColumnInfo))
  errorBody : Option String
deriving DecidableEq

/-- The `/schema` handler (lines 116-147): on query success respond
`200 {tables}`; on query failure respond `500` with an error body. -/
def schemaHandler (q : Except Unit (List InfoRow)) : SchemaResponse :=
  match q with
  | .ok rows => ⟨200, some (buildTables rows), none⟩
  | .error _ => ⟨500, none, some "Failed to fetch schema"⟩

/-- A concrete JWT verifier used by witnesses: accepts exactly the token
`tok123`, carrying a numeric subject and a tenant string. -/
def verifyExample : String → Option JwtPayload := fun t =>
  if t == "tok123" then some ⟨JSValue.num 7, JSValue.str "tenant-1"⟩ else none

/-- A concrete production environment with a 16-character secret. -/
def envProdShort : Env :=
  ⟨some "postgres://u:p@h", some "abcdefghijklmnop", some "production", none⟩

/-- A concrete development environment with a 16-character secret. -/
def envDevShort : Env :=
  ⟨some "postgres://u:p@h", some "abcdefghijklmnop", some "development", none⟩

/-- A concrete pre-shutdown process state: serving, listener open,
pool open, not exited. -/
def servingState : ProcState := ⟨true, false, false, none, []⟩

/-- A concrete one-row database for the `/schema` witnesses. -/
def dbExample : List InfoRow :=
  [⟨"public", "users", "id", "uuid", "NO", 1⟩]

-- ===========================================================================
-- Helper lemmas
-- ===========================================================================

lemma isPrefixOf_append_self (l t : List Char) : l.isPrefixOf (l ++ t) = true := by
  induction l with
  | nil => simp [List.isPrefixOf]
  | cons c cs ih => simp [List.isPrefixOf, ih]

lemma jsStartsWith_bearer (t : String) :
    jsStartsWith ("Bearer " ++ t) "Bearer " = true := by
  unfold jsStartsWith
  exact isPrefixOf_append_self _ _

lemma jsSubstringFrom_bearer (t : String) :
    jsSubstringFrom ("Bearer " ++ t) 7 = t := by
  unfold jsSubstringFrom
  show String.mk (("Bearer ".data ++ t.data).drop 7) = t
  rw [show (7 : Nat) = "Bearer ".data.length from rfl, List.drop_left]

lemma isProductionOf_iff (env : Env) :
    isProductionOf env = true ↔ env.NODE_ENV = some "production" := by
  unfold isProductionOf nodeEnvOf jsOr
  cases h : env.NODE_ENV with
  | none => simp
  | some s =>
    by_cases hs : s.isEmpty
    · have : s = "" := (String.isEmpty_iff s).mp hs
      subst this
      simp [hs]
    · simp [hs, beq_iff_eq]

-- ===========================================================================
-- Claim theorems
-- ===========================================================================

/-- C1: for every request carrying a credential that verifies to a
payload with subject `S` and a (present) tenant `T`, `pgSettings`
returns exactly the two-entry context: the subject string-coerced under
key `user.id`, and the tenant under key `user.tenant_id`. -/
theorem pgSettings_valid_credential (verify : String → Option JwtPayload)
    (req : Request) (t : String) (p : JwtPayload)
    (hauth : req.authorization = some ("Bearer " ++ t))
    (hver : verify t = some p)
    (_htenant : p.tenantId ≠ JSValue.undefined) :
    pgSettings verify req =
      [("user.id", JSValue.str (jsString p.userId)),
       ("user.tenant_id", p.tenantId)] := by
  unfold pgSettings
  rw [hauth]
  simp only [jsStartsWith_bearer, if_true, jsSubstringFrom_bearer, hver]

/-- C1 witness: a concrete verifier and request, with the numeric
subject 7 string-coerced to `"7"`. -/
theorem pgSettings_valid_credential_witness :
    pgSettings verifyExample ⟨some ("Bearer " ++ "tok123")⟩ =
      [("user.id", JSValue.str "7"), ("user.tenant_id", JSValue.str "tenant-1")] :=
  pgSettings_valid_credential verifyExample ⟨some ("Bearer " ++ "tok123")⟩
    "tok123" ⟨JSValue.num 7, JSValue.str "tenant-1"⟩ rfl (by decide) (by decide)

/-- C2: `pgSettings` is a total function of the request (its Lean type
returns a context for every request and every verifier behaviour,
never an error), and it returns the empty context both when no
credential is present and when verification of a presented bearer
credential fails (malformed or expired, modelled by `verify` returning
`none`). -/
theorem pgSettings_total_invalid_empty (verify : String → Option JwtPayload)
    (req : Request) (t : String) :
    (req.authorization = none → pgSettings verify req = []) ∧
    (req.authorization = some ("Bearer " ++ t) → verify t = none →
      pgSettings verify req = []) := by
  constructor
  · intro h
    unfold pgSettings
    rw [h]
  · intro hauth hver
    unfold pgSettings
    rw [hauth]
    simp only [jsStartsWith_bearer, if_true, jsSubstringFrom_bearer, hver]

/-- C2 witness: a request without a credential, and a request whose
bearer token fails verification, both resolve to the empty context. -/
theorem pgSettings_total_invalid_empty_witness :
    pgSettings verifyExample ⟨none⟩ = [] ∧
    pgSettings verifyExample ⟨some ("Bearer " ++ "bad")⟩ = [] :=
  ⟨(pgSettings_total_invalid_empty verifyExample ⟨none⟩ "x").1 rfl,
   (pgSettings_total_invalid_empty verifyExample ⟨some ("Bearer " ++ "bad")⟩ "bad").2
     rfl (by decide)⟩

/-- C10: an Authorization header that does not use the Bearer scheme is
treated as no credential: the resolver returns the empty context for
every verifier, in particular without the verifier being consulted
(the result is independent of `verify`). -/
theorem pgSettings_non_bearer (verify : String → Option JwtPayload)
    (h : String) (hnb : jsStartsWith h "Bearer " = false) :
    pgSettings verify ⟨some h⟩ = [] := by
  unfold pgSettings
  simp only [hnb, Bool.false_eq_true, if_false]

/-- C10 witness: a Basic-scheme header yields the empty context even
under a verifier that would accept any token. -/
theorem pgSettings_non_bearer_witness :
    pgSettings (fun _ => some ⟨JSValue.num 1, JSValue.str "t"⟩)
      ⟨some "Basic abc"⟩ = [] :=
  pgSettings_non_bearer _ "Basic abc" (by decide)

/-- C3: the engine configuration is a pure function of the tier (its
Lean type is `Bool → PostgraphileOptions`); in production the explorer
route and live re-introspection are disabled, error detail and stacks
are off, and complexity/depth are capped at 1000 units / depth 10; in
non-production the explorer and re-introspection are enabled, verbose
errors and stacks are on, and complexity and depth are unlimited. -/
theorem middleware_tier_gating :
    (middleware true).graphiqlRoute = none ∧
    (middleware true).graphiql = false ∧
    (middleware true).watchPg = false ∧
    (middleware true).extendedErrors = [] ∧
    (middleware true).showErrorStack = false ∧
    (middleware true).maxAllowedComplexity = some 1000 ∧
    (middleware true).maxAllowedDepth = some 10 ∧
    (middleware false).graphiqlRoute = some "/graphiql" ∧
    (middleware false).graphiql = true ∧
    (middleware false).watchPg = true ∧
    (middleware false).extendedErrors = ["hint", "detail", "errcode"] ∧
    (middleware false).showErrorStack = true ∧
    (middleware false).maxAllowedComplexity = none ∧
    (middleware false).maxAllowedDepth = none :=
  ⟨rfl, rfl, rfl, rfl, rfl, rfl, rfl, rfl, rfl, rfl, rfl, rfl, rfl, rfl⟩

/-- The statement of claim C4 as written: with required variables
present and a secret shorter than 32 characters, production terminates
fatally with a non-zero code, while outside production a non-fatal
warning is emitted and startup continues. -/
def claimC4 : Prop :=
  ∀ env : Env, validateEnvMissing env = [] →
    (env.JWT_SECRET.getD "").length < 32 →
    (isProductionOf env = true → ∃ c, startup env = .exited c ∧ c ≠ 0) ∧
    (isProductionOf env = false →
      validateEnvWarnings env ≠ [] ∧
      startup env = .listening (jsOr env.PORT "4004") false)

/-- C4 counterexample: in a development environment with a 16-character
secret, `validateEnv` emits no warning at all — the warning push is
guarded by `NODE_ENV === 'production'` (line 32 of `server.js`), so the
claimed non-production warning never happens. -/
theorem claimC4_false : ¬ claimC4 := by
  intro h
  have h2 := (h envDevShort (by decide) (by decide)).2 (by decide)
  exact h2.1 (by decide)

/-- C4 amended: with required variables present and a secret shorter
than 32 characters, in production the process emits the warning and
terminates fatally with exit code 1, while outside production no
warning is emitted and startup continues to the listener. -/
theorem validateEnv_short_secret (env : Env)
    (hpres : validateEnvMissing env = [])
    (hshort : (env.JWT_SECRET.getD "").length < 32) :
    (isProductionOf env = true →
      startup env = .exited 1 ∧ validateEnvWarnings env ≠ []) ∧
    (isProductionOf env = false →
      validateEnvWarnings env = [] ∧
      startup env = .listening (jsOr env.PORT "4004") false) := by
  constructor
  · intro hprod
    constructor
    · unfold startup
      rw [hpres]
      simp [hprod, hshort]
    · have hnode : env.NODE_ENV = some "production" := (isProductionOf_iff env).mp hprod
      unfold validateEnvWarnings
      rw [hnode]
      simp [hshort]
  · intro hdev
    constructor
    · have hnode : env.NODE_ENV ≠ some "production" := by
        intro hc
        rw [(isProductionOf_iff env).mpr hc] at hdev
        exact Bool.noConfusion hdev
      unfold validateEnvWarnings
      simp [hnode]
    · unfold startup
      rw [hpres]
      simp [hdev]

/-- C4 amended witness: the production environment with a short secret
exits with code 1 after a warning; the development one continues to the
listener with no warning. -/
theorem validateEnv_short_secret_witness :
    (startup envProdShort = .exited 1 ∧ validateEnvWarnings envProdShort ≠ []) ∧
    (validateEnvWarnings envDevShort = [] ∧
      startup envDevShort = .listening (jsOr envDevShort.PORT "4004") false) :=
  ⟨(validateEnv_short_secret envProdShort (by decide) (by decide)).1 (by decide),
   (validateEnv_short_secret envDevShort (by decide) (by decide)).2 (by decide)⟩

/-- C5: if the database connection string or the secret is absent (or
empty, which JS truthiness treats the same), the startup script exits
with code 1 — a non-zero code — during validation, before reaching
`app.listen`, and the straight-line `startup` function contains no
retry. -/
theorem startup_missing_required (env : Env)
    (h : jsFalsy env.DATABASE_URL = true ∨ jsFalsy env.JWT_SECRET = true) :
    startup env = .exited 1 ∧ (1 : Int) ≠ 0 ∧
    ∀ port isProd, startup env ≠ .listening port isProd := by
  have hmiss : validateEnvMissing env ≠ [] := by
    unfold validateEnvMissing
    rcases h with h1 | h2
    · simp [h1]
    · by_cases hd : jsFalsy env.DATABASE_URL <;> simp [hd, h2]
  have hstart : startup env = .exited 1 := by
    unfold startup
    simp [hmiss]
  refine ⟨hstart, by decide, ?_⟩
  intro port isProd hc
  rw [hstart] at hc
  exact StartupOutcome.noConfusion hc

/-- C5 witness: `DATABASE_URL` unset with the secret set exits with
code 1 and never reaches the listener. -/
theorem startup_missing_required_witness :
    startup ⟨none, some "x", none, none⟩ = .exited 1 ∧ (1 : Int) ≠ 0 ∧
    ∀ port isProd, startup ⟨none, some "x", none, none⟩ ≠ .listening port isProd :=
  startup_missing_required ⟨none, some "x", none, none⟩ (Or.inl (by decide))

lemma takeWhile_credChar_run (b : List Char) :
    ∀ p : List Char, (∀ c ∈ p, credChar c = true) →
      (p ++ '@' :: b).takeWhile credChar = p ∧
      (p ++ '@' :: b).dropWhile credChar = '@' :: b := by
  intro p
  induction p with
  | nil =>
    intro _
    constructor <;> simp [List.takeWhile, List.dropWhile, credChar]
  | cons c cs ih =>
    intro hall
    have hc : credChar c = true := hall c (List.mem_cons_self c cs)
    have ihc := ih fun d hd => hall d (List.mem_cons_of_mem c hd)
    constructor
    · simp [List.takeWhile, hc, ihc.1]
    · simp [List.dropWhile, hc, ihc.2]

lemma dropWhile_credChar_no_at (m : List Char) :
    ∀ a : List Char, '@' ∉ a →
      ∃ t, (a ++ ':' :: m).dropWhile credChar = ':' :: t := by
  intro a
  induction a with
  | nil =>
    intro _
    exact ⟨m, by simp [List.dropWhile, credChar]⟩
  | cons d a2 ih =>
    intro hnot
    have hd : d ≠ '@' := fun hc => hnot (hc ▸ List.mem_cons_self d a2)
    by_cases hcc : credChar d = true
    · obtain ⟨t, ht⟩ := ih fun hm => hnot (List.mem_cons_of_mem d hm)
      exact ⟨t, by simp [List.dropWhile, hcc, ht]⟩
    · have hdc : d = ':' := by
        unfold credChar at hcc
        by_cases h1 : d = ':'
        · exact h1
        · exact absurd (by simp [h1, hd]) hcc
      subst hdc
      exact ⟨a2 ++ ':' :: m, by simp [List.dropWhile, credChar]⟩

/-- The statement of claim C6 as written: whenever a connection string
contains a credentials segment `:p@` (with `p` nonempty and free of
`:` and `@`), the password `p` does not appear anywhere in the redacted
output. -/
def claimC6 : Prop :=
  ∀ s p : List Char, p ≠ [] → (∀ c ∈ p, credChar c = true) →
    listContains (':' :: (p ++ ['@'])) s = true →
    listContains p (maskCred s) = false

/-- C6 counterexample: the connection string `:a@a` has the credentials
segment `:a@` with password `a`, yet the redacted output `:****@a`
still contains `a` — the regex at line 85 of `server.js` has no global
flag and rewrites only the first match, leaving any other occurrence
of the password in place. -/
theorem claimC6_false : ¬ claimC6 := by
  intro h
  have h2 := h (":a@a".data) (['a']) (by decide) (by decide) (by decide)
  exact absurd h2 (by decide)

/-- C6 amended: the first credentials segment is masked. For every
connection string of the form `a:p@b` where `a` is free of `@`, and the
password `p` is nonempty and free of `:` and `@`, the redaction rewrites
exactly that first segment, producing `a:****@b`; an occurrence of the
password elsewhere in the string (in `a` or `b`) is not masked. -/
theorem maskCred_first_segment (a p b : List Char)
    (ha : '@' ∉ a) (hp : p ≠ []) (hpc : ∀ c ∈ p, credChar c = true) :
    maskCred (a ++ ':' :: (p ++ '@' :: b)) =
      a ++ ':' :: '*' :: '*' :: '*' :: '*' :: '@' :: b := by
  induction a with
  | nil =>
    obtain ⟨htake, hdrop⟩ := takeWhile_credChar_run b p hpc
    show maskCred (':' :: (p ++ '@' :: b)) = _
    unfold maskCred
    rw [if_pos rfl, htake, hdrop]
    rw [if_pos ⟨hp, rfl⟩]
    rfl
  | cons c a2 ih =>
    have hnot2 : '@' ∉ a2 := fun hm => ha (List.mem_cons_of_mem c hm)
    have ihr := ih hnot2
    show maskCred (c :: (a2 ++ ':' :: (p ++ '@' :: b))) = _
    by_cases hc : c = ':'
    · obtain ⟨t, ht⟩ := dropWhile_credChar_no_at (p ++ '@' :: b) a2 hnot2
      unfold maskCred
      rw [if_pos hc, ht]
      rw [if_neg (by
        intro hcontra
        have := hcontra.2
        simp at this)]
      rw [ihr]
      simp
    · unfold maskCred
      rw [if_neg hc, ihr]
      simp

/-- C6 amended witness: a realistic connection string with its password
segment masked. -/
theorem maskCred_first_segment_witness :
    maskCred ("postgres://user".data ++ ':' :: ("hunter2".data ++ '@' :: "host/db".data)) =
      "postgres://user".data ++ ':' :: '*' :: '*' :: '*' :: '*' :: '@' :: "host/db".data :=
  maskCred_first_segment "postgres://user".data "hunter2".data "host/db".data
    (by decide) (by decide) (by decide)

/-- C7: the exit code is 0 on graceful signal-driven shutdown (either
signal handler), and non-zero both on startup validation failure
(code 1) and on an unexpected pool-level fault (code -1), the latter
terminating the whole process rather than degrading only the pool. -/
theorem process_exit_codes (st : ProcState) (ok : Bool) (env : Env)
    (h : jsFalsy env.DATABASE_URL = true) :
    (sigtermHandler st ok).exitCode = some 0 ∧
    (sigintHandler st ok).exitCode = some 0 ∧
    (poolErrorHandler st).exitCode = some (-1) ∧ ((-1 : Int) ≠ 0) ∧
    startup env = .exited 1 ∧ ((1 : Int) ≠ 0) :=
  ⟨rfl, rfl, rfl, by decide,
   (startup_missing_required env (Or.inl h)).1, by decide⟩

/-- C7 witness: concrete serving state and an environment missing the
connection string. -/
theorem process_exit_codes_witness :
    (sigtermHandler servingState true).exitCode = some 0 ∧
    (sigintHandler servingState true).exitCode = some 0 ∧
    (poolErrorHandler servingState).exitCode = some (-1) ∧ ((-1 : Int) ≠ 0) ∧
    startup ⟨none, some "x", none, none⟩ = .exited 1 ∧ ((1 : Int) ≠ 0) :=
  process_exit_codes servingState true ⟨none, some "x", none, none⟩ (by decide)

/-- The statement of claim C8 as written: on a termination signal the
handler stops accepting new connections immediately, and on exit both
the listener close and the pool drain have completed (each awaited). -/
def claimC8 : Prop :=
  ∀ (st : ProcState) (ok : Bool),
    (sigtermHandler st ok).acceptingNew = false ∧
    (sigtermHandler st ok).listenerClosed = true ∧
    (sigtermHandler st ok).exitCode = some 0 ∧
    (sigintHandler st ok).acceptingNew = false ∧
    (sigintHandler st ok).listenerClosed = true ∧
    (sigintHandler st ok).exitCode = some 0

/-- C8 counterexample: from the serving state (listener not yet closed),
the SIGTERM handler reaches `process.exit(0)` with the listener close
still pending — `server.close(cb)` is initiated but never awaited
(lines 238-240 of `server.js`), only the pool drain is awaited. -/
theorem claimC8_false : ¬ claimC8 := by
  intro h
  have h2 := (h servingState true).2.1
  exact absurd h2 (by decide)

/-- C8 amended: on receipt of either termination signal the handler
stops accepting new inbound connections immediately and initiates the
listener close without awaiting its completion; it then awaits the pool
drain, which is independently error-tolerant (a drain failure appends
an error log and is not re-raised), and in every case proceeds to
`process.exit(0)`. The listener-closed flag is left exactly as it was:
close completion is not awaited before exiting. -/
theorem shutdown_handlers (st : ProcState) (ok : Bool) :
    sigtermHandler st ok =
      { acceptingNew := false,
        listenerClosed := st.listenerClosed,
        poolClosed := st.poolClosed || ok,
        exitCode := some 0,
        logs := st.logs ++ ["[System] SIGTERM received, shutting down..."] ++
          (if ok then ["[System] Database pool closed"]
           else ["[System] Error closing database pool:"]) } ∧
    sigintHandler st ok =
      { acceptingNew := false,
        listenerClosed := st.listenerClosed,
        poolClosed := st.poolClosed || ok,
        exitCode := some 0,
        logs := st.logs ++ ["[System] SIGINT received, shutting down..."] ++
          (if ok then ["[System] Database pool closed"]
           else ["[System] Error closing database pool:"]) } := by
  cases ok <;>
    constructor <;>
      simp [sigtermHandler, sigintHandler, serverCloseInitiate, poolEndCaught]

lemma mem_insertRow {x r : InfoRow} :
    ∀ {l : List InfoRow}, x ∈ insertRow r l → x = r ∨ x ∈ l := by
  intro l
  induction l with
  | nil =>
    intro h
    unfold insertRow at h
    exact Or.inl (List.mem_singleton.mp h)
  | cons y ys ih =>
    intro h
    unfold insertRow at h
    by_cases hle : rowLE r y = true
    · rw [if_pos hle] at h
      exact List.mem_cons.mp h
    · rw [if_neg hle] at h
      rcases List.mem_cons.mp h with h1 | h2
      · exact Or.inr (h1 ▸ List.mem_cons_self y ys)
      · rcases ih h2 with ha | hb
        · exact Or.inl ha
        · exact Or.inr (List.mem_cons_of_mem y hb)

lemma mem_sortRows {x : InfoRow} :
    ∀ {l : List InfoRow}, x ∈ sortRows l → x ∈ l := by
  intro l
  induction l with
  | nil =>
    intro h
    exact absurd h (by simp [sortRows])
  | cons y ys ih =>
    intro h
    unfold sortRows at h
    rcases mem_insertRow h with h1 | h2
    · exact h1 ▸ List.mem_cons_self y ys
    · exact List.mem_cons_of_mem y (ih h2)

/-- Every column object of a built table entry originates in a query row
with the matching table name. -/
def entryFromRows (rows : List InfoRow) (e : String × List ColumnInfo) : Prop :=
  (∃ r ∈ rows, r.table_name = e.1) ∧
  ∀ c ∈ e.2, ∃ r ∈ rows, r.table_name = e.1 ∧ c = colOf r

lemma addRow_preserves (rows : List InfoRow) (r : InfoRow) (hr : r ∈ rows)
    (acc : List (String × List ColumnInfo))
    (hacc : ∀ e ∈ acc, entryFromRows rows e) :
    ∀ e ∈ addRow acc r, entryFromRows rows e := by
  intro e he
  unfold addRow at he
  by_cases hb : (acc.any fun x => x.1 == r.table_name) = true
  · rw [if_pos hb] at he
    obtain ⟨e0, he0, heq⟩ := List.mem_map.mp he
    by_cases hk : (e0.1 == r.table_name) = true
    · rw [if_pos hk] at heq
      have hkey : r.table_name = e0.1 := (beq_iff_eq.mp hk).symm
      obtain ⟨⟨r0, hr0, hr0n⟩, hcols⟩ := hacc e0 he0
      refine heq ▸ ⟨⟨r0, hr0, hr0n⟩, ?_⟩
      intro c hc
      rcases List.mem_append.mp hc with h1 | h2
      · exact hcols c h1
      · exact ⟨r, hr, hkey, List.mem_singleton.mp h2⟩
    · rw [if_neg hk] at heq
      exact heq ▸ hacc e0 he0
  · rw [if_neg hb] at he
    rcases List.mem_append.mp he with h1 | h2
    · exact hacc e h1
    · have h3 : e = (r.table_name, [colOf r]) := List.mem_singleton.mp h2
      subst h3
      exact ⟨⟨r, hr, rfl⟩, fun c hc => ⟨r, hr, rfl, List.mem_singleton.mp hc⟩⟩

lemma foldl_addRow_from (rows : List InfoRow) :
    ∀ (todo : List InfoRow) (acc : List (String × List ColumnInfo)),
      (∀ r ∈ todo, r ∈ rows) → (∀ e ∈ acc, entryFromRows rows e) →
      ∀ e ∈ todo.foldl addRow acc, entryFromRows rows e := by
  intro todo
  induction todo with
  | nil =>
    intro acc _ hacc e he
    exact hacc e he
  | cons r rs ih =>
    intro acc htodo hacc e he
    simp only [List.foldl_cons] at he
    exact ih (addRow acc r)
      (fun x hx => htodo x (List.mem_cons_of_mem r hx))
      (addRow_preserves rows r (htodo r (List.mem_cons_self r rs)) acc hacc) e he

lemma buildTables_from (rows : List InfoRow) :
    ∀ e ∈ buildTables rows, entryFromRows rows e :=
  foldl_addRow_from rows rows [] (fun _ h => h)
    (fun _ h => absurd h (List.not_mem_nil _))

/-- C9: for every successful schema query, `GET /schema` responds 200
with the built tables mapping; every table entry of that mapping is
named `users` or `tenants` (the fixed allow-list of the query), and
every column object of an entry comes from a row of the database with
schema `public` and the matching table name, with `nullable` true
exactly when the row has `is_nullable = YES`; a failed query responds
500. -/
theorem schema_endpoint (db : List InfoRow) (e : String × List ColumnInfo)
    (he : e ∈ buildTables (runSchemaQuery db)) :
    (schemaHandler (Except.ok (runSchemaQuery db))).status = 200 ∧
    (schemaHandler (Except.ok (runSchemaQuery db))).tables =
      some (buildTables (runSchemaQuery db)) ∧
    (e.1 = "users" ∨ e.1 = "tenants") ∧
    (∀ c ∈ e.2, ∃ r, r ∈ db ∧ r.table_schema = "public" ∧ r.table_name = e.1 ∧
      c.name = r.column_name ∧ c.type = r.data_type ∧
      (c.nullable = true ↔ r.is_nullable = "YES")) ∧
    schemaHandler (Except.error ()) = ⟨500, none, some "Failed to fetch schema"⟩ := by
  have hfrom := buildTables_from (runSchemaQuery db) e he
  have hmem : ∀ r : InfoRow, r ∈ runSchemaQuery db →
      r ∈ db ∧ schemaRowSelected r = true := by
    intro r hr
    unfold runSchemaQuery at hr
    exact List.mem_filter.mp (mem_sortRows hr)
  refine ⟨rfl, rfl, ?_, ?_, rfl⟩
  · obtain ⟨⟨r, hr, hname⟩, _⟩ := hfrom
    obtain ⟨_, hsel⟩ := hmem r hr
    unfold schemaRowSelected at hsel
    rw [Bool.and_eq_true, Bool.or_eq_true, beq_iff_eq, beq_iff_eq, beq_iff_eq] at hsel
    rw [← hname]
    exact hsel.2
  · intro c hc
    obtain ⟨_, hcols⟩ := hfrom
    obtain ⟨r, hr, hname, hcol⟩ := hcols c hc
    obtain ⟨hdb, hsel⟩ := hmem r hr
    unfold schemaRowSelected at hsel
    rw [Bool.and_eq_true, beq_iff_eq] at hsel
    subst hcol
    exact ⟨r, hdb, hsel.1, hname, rfl, rfl, by simp [colOf]⟩

/-- C9 witness: a one-row public `users` table produces a 200 response
whose single entry is on the allow-list with a non-nullable column. -/
theorem schema_endpoint_witness :
    (schemaHandler (Except.ok (runSchemaQuery dbExample))).status = 200 ∧
    (("users", [ColumnInfo.mk "id" "uuid" false]).1 = "users" ∨
      ("users", [ColumnInfo.mk "id" "uuid" false]).1 = "tenants") :=
  ⟨(schema_endpoint dbExample ("users", [ColumnInfo.mk "id" "uuid" false])
      (by decide)).1,
   (schema_endpoint dbExample ("users", [ColumnInfo.mk "id" "uuid" false])
      (by decide)).2.2.1⟩

